import Mathlib

/-!
A shallow embedding of `lib/Router.js` from `stateful-controller-browser-router`.

The router is single-threaded and has exactly one suspension point: the
front controller's asynchronous `state()` operation.  Every public entry
point runs synchronously to completion, and the continuation attached to the
in-flight controller operation also runs synchronously once that operation
settles.  We therefore model the router as a deterministic step machine:

* `Router` is the mutable instance state (`currentStateList`,
  `_pendingTransitionPromise`, `_pendingReplace`, `_queue`,
  `_initialHistoryState`) together with an append-only log of observable
  events (front-controller invocations, history-stack writes, emitted
  events, and promise settlements).
* Each method of the source becomes a function `Router -> ... -> Router`
  (returning the promise id handed back to the caller where the source
  returns a promise).
* The settlement of the in-flight front-controller operation is an explicit
  input (`settleTransition`), which replays the `.then`/`.finally`
  continuation chains built in `enterStates`, `_handleHistoryState` and
  `_doQueuedTransition`.

Promises are modelled by numeric ids allocated from a counter; a promise
settling is recorded in the log.  `urlStateMap.toURL` may throw (modelled
with `Except`); `fromURL` is modelled as total (no claim exercises a
throwing `fromURL`).  `window.history.state` is modelled by the
`windowHistoryState` field, updated by the router's own
`pushState`/`replaceState` calls.
-/

/-- An ordered list of opaque state identifiers. -/
abbrev StateList := List String

abbrev Url := String

/-- Errors observable through rejected promises. -/
inductive Err where
  /-- the `Error('A previous state transition is still pending')` thrown by `enterStates` -/
  | pendingTransition : Err
  /-- an error produced by a collaborator (front controller rejection, `toURL` throw, ...) -/
  | external (tag : String) : Err
deriving DecidableEq, Repr

/-- Settlement of a promise: resolution (the router always resolves with `null`)
or rejection with an error. -/
inductive Outcome where
  | resolved : Outcome
  | rejected (e : Err) : Outcome
deriving DecidableEq, Repr

/-- A browser history record: either one created by this library
(`{ statefulControllerRouterUrl: { url } }`) or an arbitrary record owned by
someone else. -/
inductive HistoryState where
  | own (url : Url) : HistoryState
  | foreign (tag : String) : HistoryState
deriving DecidableEq, Repr

/-- Events emitted via the EventEmitter interface.  The source emits only
`transitionComplete` plus the event-name argument of `_handleHistoryState`
(`upgradeInitialState` or `historyPopState`); it has no failure events. -/
inductive Notif where
  | transitionComplete (stateList : StateList) (url : Url) : Notif
  | upgradeInitialState (stateList : StateList) (url : Url) (promise : Nat) : Notif
  | historyPopState (stateList : StateList) (url : Url) (promise : Nat) : Notif
deriving DecidableEq, Repr

/-- One observable event of a run. -/
inductive Ev where
  /-- `frontController.state(stateList, upgrade)` invoked -/
  | ctrlCall (stateList : StateList) (upgrade : Bool) : Ev
  /-- `history.pushState` (`push = true`) or `history.replaceState` (`push = false`) -/
  | histWrite (push : Bool) (record : HistoryState) (url : Url) : Ev
  /-- `this.emit(...)` -/
  | notif (n : Notif) : Ev
  /-- a promise held by a caller settles -/
  | promiseSettled (id : Nat) (out : Outcome) : Ev
deriving DecidableEq, Repr

/-- What the continuation chain of the in-flight transition will do when the
front-controller operation settles: the chain built in `enterStates`
(`api`), the one built in `_handleHistoryState` (`history`, with the decoded
url pinned), or the one built in `_doQueuedTransition` (`queued`, where
`fromHistory` is the source's `false`-or-url field). -/
inductive TransKind where
  | api (push : Bool) : TransKind
  | history (url : Url) (upgrade : Bool) : TransKind
  | queued (fromHistory : Option Url) (push : Bool) : TransKind
deriving DecidableEq, Repr

/-- The in-flight transition (`_pendingTransitionPromise` is non-null). -/
structure InFlight where
  stateList : StateList
  kind : TransKind
  /-- the id of the promise that settles when this transition's chain settles -/
  promiseId : Nat
deriving DecidableEq, Repr

/-- The single queue slot (`_queue` with `hasEntry = true`).  `fromHistory`
is `none` when the source stores `false` and `some url` when it stores the
decoded url (the source compares with `=== false`, so this is exact). -/
structure QueueEntry where
  stateList : StateList
  fromHistory : Option Url
  upgrade : Bool
  push : Bool
  promiseId : Nat
deriving DecidableEq, Repr

/-- The state of one `Router` instance plus the log of observable events. -/
structure Router where
  currentStateList : Option StateList
  pendingTransition : Option InFlight
  pendingReplace : Option StateList
  queue : Option QueueEntry
  initialHistoryState : Option HistoryState
  /-- `window.history.state`: the record most recently written via
  `pushState`/`replaceState`, or the value present at construction -/
  windowHistoryState : Option HistoryState
  popListenerAttached : Bool
  nextPromise : Nat
  log : List Ev
deriving DecidableEq, Repr

/-- The collaborators: the `urlStateMap` codec and `window.location`.
`toURL` may throw; `fromURL` is modelled as total. -/
structure Env where
  toURL : StateList → Except Err Url
  fromURL : Url → StateList
  /-- `window.location.pathname + window.location.search` -/
  locationPath : Url

/-- A freshly constructed router (`new Router(...)`), given the value of
`window.history.state` at construction time. -/
def initRouter (windowState : Option HistoryState) : Router :=
  { currentStateList := none
    pendingTransition := none
    pendingReplace := none
    queue := none
    initialHistoryState := none
    windowHistoryState := windowState
    popListenerAttached := false
    nextPromise := 0
    log := [] }

namespace Router

/-- `Router.prototype._urlToHistoryState` -/
def urlToHistoryState (url : Url) : HistoryState :=
  .own url

/-- `Router.prototype._pushHistoryState`: derive the url via `toURL` (which
may throw), then write the record with push or replace semantics.  Returns
the updated router and the url. -/
def pushHistoryState (env : Env) (r : Router) (stateList : StateList) (push : Bool) :
    Except Err (Router × Url) :=
  match env.toURL stateList with
  | .error e => .error e
  | .ok url =>
      .ok ({ r with
              windowHistoryState := some (urlToHistoryState url)
              log := r.log ++ [.histWrite push (urlToHistoryState url) url] }, url)

/-- `Router.prototype._saveStateAsInitial`: keep `history.state` when it is
a record of this library, otherwise derive one from the location. -/
def saveStateAsInitial (env : Env) (r : Router) : Router :=
  match r.windowHistoryState with
  | some (.own url) => { r with initialHistoryState := some (.own url) }
  | _ => { r with initialHistoryState := some (urlToHistoryState env.locationPath) }

/-- `Router.prototype.attachPopStateListener`: subscribe, and capture the
initial record only when none has been captured yet. -/
def attachPopStateListener (env : Env) (r : Router) : Router :=
  let r1 := { r with popListenerAttached := true }
  if r1.initialHistoryState.isNone then saveStateAsInitial env r1 else r1

/-- `Router.prototype._addToQueue`: overwrite the single slot; create the
shared promise only if the slot had none. -/
def addToQueue (r : Router) (stateList : StateList) (fromHistory : Option Url)
    (upgrade : Bool) (push : Bool) : Router × Nat :=
  match r.queue with
  | some q =>
      ({ r with queue := some ⟨stateList, fromHistory, upgrade, push, q.promiseId⟩ },
       q.promiseId)
  | none =>
      ({ r with
          nextPromise := r.nextPromise + 1
          queue := some ⟨stateList, fromHistory, upgrade, push, r.nextPromise⟩ },
       r.nextPromise)

/-- `Router.prototype.enterStates` (a `Promise.method`): when a transition
is pending the thrown error becomes a rejected promise; otherwise the front
controller is invoked and the continuation chain is armed. -/
def enterStates (env : Env) (r : Router) (stateList : StateList) (pushHistory : Bool) :
    Router × Nat :=
  if r.pendingTransition.isSome then
    ({ r with
        nextPromise := r.nextPromise + 1
        log := r.log ++ [.promiseSettled r.nextPromise (.rejected .pendingTransition)] },
     r.nextPromise)
  else
    ({ r with
        nextPromise := r.nextPromise + 1
        pendingTransition := some ⟨stateList, .api pushHistory, r.nextPromise⟩
        log := r.log ++ [.ctrlCall stateList false] },
     r.nextPromise)

/-- `Router.prototype.queueEnterStates` -/
def queueEnterStates (env : Env) (r : Router) (stateList : StateList) (pushHistory : Bool) :
    Router × Nat :=
  if r.pendingTransition.isSome then
    addToQueue r stateList none false pushHistory
  else
    enterStates env r stateList pushHistory

/-- `Router.prototype.replaceStateList`: record an override while pending;
otherwise update `currentStateList` and write a replace record (the
assignment precedes the `toURL` call, which may throw). -/
def replaceStateList (env : Env) (r : Router) (stateList : StateList) :
    Router × Except Err Unit :=
  if r.pendingTransition.isSome then
    ({ r with pendingReplace := some stateList }, .ok ())
  else
    let r1 := { r with currentStateList := some stateList }
    match pushHistoryState env r1 stateList false with
    | .error e => (r1, .error e)
    | .ok (r2, _) => (r2, .ok ())

/-- The event-name argument of `_handleHistoryState`. -/
inductive HistEvName where
  | upgradeInitialState : HistEvName
  | historyPopState : HistEvName
deriving DecidableEq, Repr

/-- Build the emitted event from the event-name argument. -/
def mkHistNotif (e : HistEvName) (stateList : StateList) (url : Url) (promise : Nat) :
    Notif :=
  match e with
  | .upgradeInitialState => .upgradeInitialState stateList url promise
  | .historyPopState => .historyPopState stateList url promise

/-- `Router.prototype._handleHistoryState`: ignore absent or foreign
records; otherwise decode the url and either enqueue (pending) or start a
history-kind transition, then emit the event. -/
def handleHistoryState (env : Env) (r : Router) (historyState : Option HistoryState)
    (upgrade : Bool) (event : HistEvName) : Router × Option Nat :=
  match historyState with
  | none => (r, none)
  | some (.foreign _) => (r, none)
  | some (.own url) =>
      let stateList := env.fromURL url
      if r.pendingTransition.isSome then
        let p := addToQueue r stateList (some url) upgrade false
        ({ p.1 with log := p.1.log ++ [.notif (mkHistNotif event stateList url p.2)] },
         some p.2)
      else
        ({ r with
            nextPromise := r.nextPromise + 1
            pendingTransition := some ⟨stateList, .history url upgrade, r.nextPromise⟩
            log := r.log ++ [.ctrlCall stateList upgrade,
                             .notif (mkHistNotif event stateList url r.nextPromise)] },
         some r.nextPromise)

/-- `Router.prototype.upgradeInitialState`: unconditionally re-run
`_saveStateAsInitial`, then handle the stored record as an upgrade. -/
def upgradeInitialState (env : Env) (r : Router) : Router × Option Nat :=
  let r1 := saveStateAsInitial env r
  handleHistoryState env r1 r1.initialHistoryState true .upgradeInitialState

/-- The record `_onpopstate` acts on: `e.state || this._initialHistoryState`. -/
def effectiveRecord (r : Router) (eventState : Option HistoryState) :
    Option HistoryState :=
  match eventState with
  | some s => some s
  | none => r.initialHistoryState

/-- `Router.prototype._onpopstate`: fall back to the captured initial
record when the event carries none. -/
def onpopstate (env : Env) (r : Router) (eventState : Option HistoryState) : Router :=
  (handleHistoryState env r (effectiveRecord r eventState) false .historyPopState).1

/-- `Router.prototype._doQueuedTransition`: drain the slot and, when it was
occupied, invoke the front controller on the drained request and arm the
queued-kind continuation chain. -/
def doQueuedTransition (r : Router) : Router :=
  match r.queue with
  | none => r
  | some q =>
      { r with
          queue := none
          pendingTransition := some ⟨q.stateList, .queued q.fromHistory q.push, q.promiseId⟩
          log := r.log ++ [.ctrlCall q.stateList q.upgrade] }

/-- The `.then` success handler of the chain built in `enterStates`:
`currentStateList = pendingReplace || stateList`, then the history write
(whose `toURL` may throw), then the `transitionComplete` emit.  Returns the
router and the chain's outcome so far. -/
def apiThen (env : Env) (r : Router) (stateList : StateList) (push : Bool)
    (res : Outcome) : Router × Outcome :=
  match res with
  | .rejected e => (r, .rejected e)
  | .resolved =>
      let newList := r.pendingReplace.getD stateList
      let r1 := { r with currentStateList := some newList }
      match pushHistoryState env r1 newList push with
      | .error e => (r1, .rejected e)
      | .ok (r2, url) =>
          ({ r2 with log := r2.log ++ [.notif (.transitionComplete stateList url)] },
           .resolved)

/-- The `.then` success handler of the chain built in `_handleHistoryState`:
`currentStateList = stateList` (the `_pendingReplace` override is ignored
here), no history write, then the emit. -/
def historyThen (r : Router) (stateList : StateList) (url : Url) (res : Outcome) :
    Router × Outcome :=
  match res with
  | .rejected e => (r, .rejected e)
  | .resolved =>
      ({ r with
          currentStateList := some stateList
          log := r.log ++ [.notif (.transitionComplete stateList url)] },
       .resolved)

/-- The `.then` success handler of the chain built in `_doQueuedTransition`:
like `apiThen`, except that when `fromHistory` carries a url that url is
used as-is and no history write happens. -/
def queuedThen (env : Env) (r : Router) (stateList : StateList) (fromHistory : Option Url)
    (push : Bool) (res : Outcome) : Router × Outcome :=
  match res with
  | .rejected e => (r, .rejected e)
  | .resolved =>
      let newList := r.pendingReplace.getD stateList
      let r1 := { r with currentStateList := some newList }
      match fromHistory with
      | some url =>
          ({ r1 with log := r1.log ++ [.notif (.transitionComplete stateList url)] },
           .resolved)
      | none =>
          match pushHistoryState env r1 newList push with
          | .error e => (r1, .rejected e)
          | .ok (r2, url) =>
              ({ r2 with log := r2.log ++ [.notif (.transitionComplete stateList url)] },
               .resolved)

/-- The `.finally` handler plus the final settlement of the chain: clear
`_pendingTransitionPromise` (and `_pendingReplace`, except in the
`_handleHistoryState` chain, whose `finally` does not touch it), drain the
queue — starting the drained request before the outcome is observable — and
settle the chain's promise. -/
def finishTransition (r : Router) (clearReplace : Bool) (promiseId : Nat)
    (out : Outcome) : Router :=
  let r1 := { r with
                pendingTransition := none
                pendingReplace := if clearReplace then none else r.pendingReplace }
  let r2 := doQueuedTransition r1
  { r2 with log := r2.log ++ [.promiseSettled promiseId out] }

/-- Settlement of the in-flight front-controller operation with outcome
`res`: replay the continuation chain armed for the pending transition.
When no transition is pending this input has no real-world counterpart and
is a no-op. -/
def settleTransition (env : Env) (r : Router) (res : Outcome) : Router :=
  match r.pendingTransition with
  | none => r
  | some t =>
      match t.kind with
      | .api push =>
          let p := apiThen env r t.stateList push res
          finishTransition p.1 true t.promiseId p.2
      | .history url upgrade =>
          let p := historyThen r t.stateList url res
          finishTransition p.1 false t.promiseId p.2
      | .queued fromHistory push =>
          let p := queuedThen env r t.stateList fromHistory push res
          finishTransition p.1 true t.promiseId p.2

end Router

/-- An input to the machine: one public entry point, one host popstate
event, or the settlement of the in-flight controller operation. -/
inductive Input where
  | enter (stateList : StateList) (push : Bool) : Input
  | queueEnter (stateList : StateList) (push : Bool) : Input
  | replace (stateList : StateList) : Input
  | upgradeInit : Input
  | attach : Input
  | popstate (eventState : Option HistoryState) : Input
  | settle (res : Outcome) : Input
deriving DecidableEq, Repr

/-- One atomic step of the machine. -/
def step (env : Env) (r : Router) : Input → Router
  | .enter stateList push => (Router.enterStates env r stateList push).1
  | .queueEnter stateList push => (Router.queueEnterStates env r stateList push).1
  | .replace stateList => (Router.replaceStateList env r stateList).1
  | .upgradeInit => (Router.upgradeInitialState env r).1
  | .attach => Router.attachPopStateListener env r
  | .popstate s => Router.onpopstate env r s
  | .settle res => Router.settleTransition env r res

/-- Run a list of inputs from left to right. -/
def run (env : Env) (r : Router) (inputs : List Input) : Router :=
  inputs.foldl (step env) r

/-- The history-stack writes of a log. -/
def histWritesOf (l : List Ev) : List Ev :=
  l.filter fun e =>
    match e with
    | .histWrite _ _ _ => true
    | _ => false

/-- The front-controller invocations of a log. -/
def ctrlCallsOf (l : List Ev) : List Ev :=
  l.filter fun e =>
    match e with
    | .ctrlCall _ _ => true
    | _ => false

/-- The emitted events of a log. -/
def notifsOf (l : List Ev) : List Ev :=
  l.filter fun e =>
    match e with
    | .notif _ => true
    | _ => false

/-- The settlements of the promise with the given id. -/
def settlementsOf (id : Nat) (l : List Ev) : List Ev :=
  l.filter fun e =>
    match e with
    | .promiseSettled i _ => i = id
    | _ => false

/-! ## Concrete material for witnesses and counterexamples -/

/-- A small concrete codec for concrete runs: a singleton list `[s]` maps to
the url `"/" ++ s`; other lists are not encodable; a url decodes to the
singleton of its tail. -/
def exEnv : Env :=
  { toURL := fun sl =>
      match sl with
      | [s] => .ok ("/" ++ s)
      | _ => .error (.external "encode")
    fromURL := fun u => [u.drop 1]
    locationPath := "/a" }

/-- A router with an `enterStates`-started transition to `["a"]` in flight. -/
def exPendingApi : Router := step exEnv (initRouter none) (.enter ["a"] true)

/-! ## C3 -/

/-- Conclusion of claim C3: the call leaves every piece of router state and
every observable other than its own rejected promise untouched; the exact
log extension shows that the front controller is not invoked and the
history stack is not written. -/
def C3Post (env : Env) (r : Router) (stateList : StateList) (push : Bool) : Prop :=
  (Router.enterStates env r stateList push).1.currentStateList = r.currentStateList ∧
  (Router.enterStates env r stateList push).1.pendingTransition = r.pendingTransition ∧
  (Router.enterStates env r stateList push).1.pendingReplace = r.pendingReplace ∧
  (Router.enterStates env r stateList push).1.queue = r.queue ∧
  (Router.enterStates env r stateList push).1.windowHistoryState = r.windowHistoryState ∧
  (Router.enterStates env r stateList push).1.log =
    r.log ++ [.promiseSettled (Router.enterStates env r stateList push).2
      (.rejected .pendingTransition)]

/-- C3: every call to `enterStates` made while a transition is running
fails immediately with the pending-transition error, the front controller
is not invoked for it, and `currentStateList`, the history stack, the queue
slot and the in-flight transition are all left untouched. -/
theorem C3_enterStates_pending_rejects (env : Env) (r : Router) (t : InFlight)
    (stateList : StateList) (push : Bool)
    (hp : r.pendingTransition = some t) :
    C3Post env r stateList push := by
  simp [C3Post, Router.enterStates, hp]

/-- Concrete instance of `C3_enterStates_pending_rejects`. -/
theorem C3_enterStates_pending_rejects_witness :
    exPendingApi.pendingTransition = some ⟨["a"], .api true, 0⟩ ∧
    C3Post exEnv exPendingApi ["b"] true :=
  ⟨rfl, C3_enterStates_pending_rejects exEnv exPendingApi ⟨["a"], .api true, 0⟩ ["b"] true rfl⟩

/-! ## C9 -/

/-- C9: a popstate event whose effective record — the event's record if
non-null, otherwise the captured initial record — is absent or not a record
of this library leaves the router completely unchanged: no notification, no
front-controller invocation, no change to `currentStateList` or the history
stack. -/
theorem C9_foreign_popstate_ignored (env : Env) (r : Router)
    (eventState : Option HistoryState)
    (h : Router.effectiveRecord r eventState = none ∨
         ∃ tag, Router.effectiveRecord r eventState = some (.foreign tag)) :
    Router.onpopstate env r eventState = r := by
  unfold Router.onpopstate
  rcases h with h | ⟨tag, h⟩ <;> rw [h] <;> rfl

/-- Concrete instance of `C9_foreign_popstate_ignored`: a record created by
someone else is ignored outright. -/
theorem C9_foreign_popstate_ignored_witness :
    (Router.effectiveRecord exPendingApi (some (.foreign "blabla")) = none ∨
       ∃ tag, Router.effectiveRecord exPendingApi (some (.foreign "blabla")) =
         some (.foreign tag)) ∧
    Router.onpopstate exEnv exPendingApi (some (.foreign "blabla")) = exPendingApi :=
  ⟨Or.inr ⟨"blabla", rfl⟩,
   C9_foreign_popstate_ignored exEnv exPendingApi (some (.foreign "blabla"))
     (Or.inr ⟨"blabla", rfl⟩)⟩

/-! ## C10 -/

/-- Conclusion of claim C10: at a successful controller settlement whose
history write fails to encode, `currentStateList` has already moved to the
entered list, the only appended events are the drain of the queue and the
rejection of the outcome promise with the `toURL` error — in particular no
history write and no `transitionComplete` emit. -/
def C10Post (env : Env) (r : Router) (stateList : StateList) (pid : Nat) (e : Err) : Prop :=
  (Router.settleTransition env r .resolved).currentStateList = some stateList ∧
  (Router.settleTransition env r .resolved).log =
    r.log ++
      (match r.queue with
        | none => []
        | some q => [Ev.ctrlCall q.stateList q.upgrade]) ++
      [.promiseSettled pid (.rejected e)] ∧
  histWritesOf (Router.settleTransition env r .resolved).log = histWritesOf r.log ∧
  notifsOf (Router.settleTransition env r .resolved).log = notifsOf r.log

/-- C10: if the front-controller operation of an `enterStates` transition
succeeds but `toURL` throws while deriving the url for the history write,
then `currentStateList` has already been updated to the new list, no
history write and no `transitionComplete` notification occur, and the
outcome promise rejects with the `toURL` error. -/
theorem C10_encode_failure_after_success (env : Env) (r : Router)
    (stateList : StateList) (push : Bool) (pid : Nat) (e : Err)
    (hp : r.pendingTransition = some ⟨stateList, .api push, pid⟩)
    (hrep : r.pendingReplace = none)
    (henc : env.toURL stateList = .error e) :
    C10Post env r stateList pid e := by
  obtain ⟨cur, pend, rep, q, init, win, att, np, lg⟩ := r
  simp only at hp hrep
  subst hp hrep
  cases q <;>
    simp [C10Post, Router.settleTransition, Router.apiThen, Router.pushHistoryState,
      Router.finishTransition, Router.doQueuedTransition, henc, histWritesOf, notifsOf,
      List.filter_append]

/-- Concrete instance of `C10_encode_failure_after_success`: the list
`["a", "b"]` is not encodable by `exEnv`. -/
theorem C10_encode_failure_after_success_witness :
    (step exEnv (initRouter none) (.enter ["a", "b"] true)).pendingTransition =
      some ⟨["a", "b"], .api true, 0⟩ ∧
    (step exEnv (initRouter none) (.enter ["a", "b"] true)).pendingReplace = none ∧
    exEnv.toURL ["a", "b"] = .error (.external "encode") ∧
    C10Post exEnv (step exEnv (initRouter none) (.enter ["a", "b"] true)) ["a", "b"] 0
      (.external "encode") :=
  ⟨rfl, rfl, rfl,
   C10_encode_failure_after_success exEnv (step exEnv (initRouter none) (.enter ["a", "b"] true))
     ["a", "b"] true 0 (.external "encode") rfl rfl rfl⟩

/-! ## C4 -/

/-- Conclusion of claim C4: at a rejected controller settlement,
`currentStateList` is untouched, the history stack is untouched, the
originating caller's promise rejects with the controller's error, and the
queue slot is drained in the same step — when a request was queued, its
front-controller invocation is already in the log and it is the new
in-flight transition. -/
def C4Post (env : Env) (r : Router) (pid : Nat) (e : Err) : Prop :=
  (Router.settleTransition env r (.rejected e)).currentStateList = r.currentStateList ∧
  histWritesOf (Router.settleTransition env r (.rejected e)).log = histWritesOf r.log ∧
  (Router.settleTransition env r (.rejected e)).log =
    r.log ++
      (match r.queue with
        | none => []
        | some q => [Ev.ctrlCall q.stateList q.upgrade]) ++
      [.promiseSettled pid (.rejected e)] ∧
  (Router.settleTransition env r (.rejected e)).queue = none ∧
  (Router.settleTransition env r (.rejected e)).pendingTransition =
    (match r.queue with
      | none => none
      | some q => some ⟨q.stateList, .queued q.fromHistory q.push, q.promiseId⟩)

/-- C4: if the front-controller operation of the running transition rejects
with error `e` — whatever entry point started that transition — then
`currentStateList` is unchanged, no history write occurs for it, the
originating caller's outcome promise rejects with `e`, and the queue is
drained at settlement so a queued request still gets to run. -/
theorem C4_controller_failure_atomic (env : Env) (r : Router) (t : InFlight) (e : Err)
    (hp : r.pendingTransition = some t) :
    C4Post env r t.promiseId e := by
  obtain ⟨cur, pend, rep, q, init, win, att, np, lg⟩ := r
  simp only at hp
  subst hp
  obtain ⟨sl, k, pid⟩ := t
  cases k <;> cases q <;>
    simp [C4Post, Router.settleTransition, Router.apiThen, Router.historyThen,
      Router.queuedThen, Router.finishTransition, Router.doQueuedTransition,
      histWritesOf, List.filter_append]

/-- Concrete instance of `C4_controller_failure_atomic`, with a request
waiting in the queue so that the drain is visible. -/
theorem C4_controller_failure_atomic_witness :
    (run exEnv (initRouter none) [.enter ["a"] true, .queueEnter ["c"] true]).pendingTransition
      = some ⟨["a"], .api true, 0⟩ ∧
    C4Post exEnv (run exEnv (initRouter none) [.enter ["a"] true, .queueEnter ["c"] true]) 0
      (.external "quux") :=
  ⟨rfl,
   C4_controller_failure_atomic exEnv
     (run exEnv (initRouter none) [.enter ["a"] true, .queueEnter ["c"] true])
     ⟨["a"], .api true, 0⟩ (.external "quux") rfl⟩

/-! ## C2 -/

/-- Conclusion shared by the write-performing settlement cases of claim C2:
at a successful settlement the log grows by the history write, then the
`transitionComplete` emit, then the drain of the queue, then the resolution
of the outcome promise — so the write is strictly after the controller
operation resolved and strictly before the outcome promise resolves — and
`currentStateList` moves to the entered list (or the recorded override) in
the same step. -/
def C2WritePost (env : Env) (r : Router) (sl : StateList) (push : Bool) (pid : Nat)
    (u : Url) : Prop :=
  (Router.settleTransition env r .resolved).currentStateList =
    some (r.pendingReplace.getD sl) ∧
  (Router.settleTransition env r .resolved).log =
    r.log ++ [.histWrite push (.own u) u, .notif (.transitionComplete sl u)] ++
      (match r.queue with
        | none => []
        | some q => [Ev.ctrlCall q.stateList q.upgrade]) ++
      [.promiseSettled pid .resolved]

/-- C2: ordering of the history write.  (1) While a transition is running,
no other input writes the history stack or moves `currentStateList` — the
previous state is visible throughout the controller operation.  (2) A
failed settlement writes nothing and only rejects the outcome promise.
(3)/(4) A successful settlement of an `enterStates`-started or
queue-started transition appends, in order: the history write, the
`transitionComplete` emit, the drained request's controller invocation (if
any), and the resolution of the outcome promise.  (5) A successful
settlement of a history-navigation transition performs no history write at
all.  (6) Starting a transition does not move `currentStateList`. -/
theorem C2_history_write_ordering :
    (∀ (env : Env) (r : Router) (t : InFlight) (inp : Input),
        r.pendingTransition = some t → (∀ res, inp ≠ .settle res) →
        (step env r inp).currentStateList = r.currentStateList ∧
        histWritesOf (step env r inp).log = histWritesOf r.log) ∧
    (∀ (env : Env) (r : Router) (t : InFlight) (e : Err),
        r.pendingTransition = some t →
        (Router.settleTransition env r (.rejected e)).currentStateList =
          r.currentStateList ∧
        (Router.settleTransition env r (.rejected e)).log =
          r.log ++
            (match r.queue with
              | none => []
              | some q => [Ev.ctrlCall q.stateList q.upgrade]) ++
            [.promiseSettled t.promiseId (.rejected e)]) ∧
    (∀ (env : Env) (r : Router) (sl : StateList) (push : Bool) (pid : Nat) (u : Url),
        r.pendingTransition = some ⟨sl, .api push, pid⟩ →
        env.toURL (r.pendingReplace.getD sl) = .ok u →
        C2WritePost env r sl push pid u) ∧
    (∀ (env : Env) (r : Router) (sl : StateList) (push : Bool) (pid : Nat) (u : Url),
        r.pendingTransition = some ⟨sl, .queued none push, pid⟩ →
        env.toURL (r.pendingReplace.getD sl) = .ok u →
        C2WritePost env r sl push pid u) ∧
    (∀ (env : Env) (r : Router) (sl : StateList) (url : Url) (upg : Bool) (pid : Nat),
        r.pendingTransition = some ⟨sl, .history url upg, pid⟩ →
        (Router.settleTransition env r .resolved).currentStateList = some sl ∧
        (Router.settleTransition env r .resolved).log =
          r.log ++ [.notif (.transitionComplete sl url)] ++
            (match r.queue with
              | none => []
              | some q => [Ev.ctrlCall q.stateList q.upgrade]) ++
            [.promiseSettled pid .resolved]) ∧
    (∀ (env : Env) (r : Router) (sl : StateList) (push : Bool),
        (Router.enterStates env r sl push).1.currentStateList = r.currentStateList) := by
  refine ⟨?_, ?_, ?_, ?_, ?_, ?_⟩
  · intro env r t inp hp hns
    obtain ⟨cur, pend, rep, q, init, win, att, np, lg⟩ := r
    simp only at hp
    subst hp
    cases inp with
    | settle res => exact absurd rfl (hns res)
    | enter sl p =>
        simp [step, Router.enterStates, histWritesOf, List.filter_append]
    | queueEnter sl p =>
        rcases q with _ | q2 <;>
          simp [step, Router.queueEnterStates, Router.addToQueue, histWritesOf,
            List.filter_append]
    | replace sl =>
        simp [step, Router.replaceStateList]
    | upgradeInit =>
        rcases q with _ | q2 <;> rcases win with _ | (⟨u⟩ | ⟨g⟩) <;>
          simp [step, Router.upgradeInitialState, Router.saveStateAsInitial,
            Router.handleHistoryState, Router.addToQueue, Router.urlToHistoryState,
            histWritesOf, List.filter_append]
    | attach =>
        rcases init with _ | (⟨v⟩ | ⟨h2⟩) <;> rcases win with _ | (⟨u⟩ | ⟨g⟩) <;>
          simp [step, Router.attachPopStateListener, Router.saveStateAsInitial,
            Router.urlToHistoryState, histWritesOf]
    | popstate s =>
        rcases s with _ | (⟨u⟩ | ⟨g⟩) <;> rcases init with _ | (⟨v⟩ | ⟨h2⟩) <;>
          rcases q with _ | q2 <;>
          simp [step, Router.onpopstate, Router.effectiveRecord,
            Router.handleHistoryState, Router.addToQueue, histWritesOf,
            List.filter_append]
  · intro env r t e hp
    obtain ⟨cur, pend, rep, q, init, win, att, np, lg⟩ := r
    simp only at hp
    subst hp
    obtain ⟨sl, k, pid⟩ := t
    cases k <;> rcases q with _ | q2 <;>
      simp [Router.settleTransition, Router.apiThen, Router.historyThen,
        Router.queuedThen, Router.finishTransition, Router.doQueuedTransition,
        histWritesOf, List.filter_append]
  · intro env r sl push pid u hp henc
    obtain ⟨cur, pend, rep, q, init, win, att, np, lg⟩ := r
    simp only at hp henc
    subst hp
    rcases q with _ | q2 <;>
      simp [C2WritePost, Router.settleTransition, Router.apiThen,
        Router.pushHistoryState, Router.urlToHistoryState, Router.finishTransition,
        Router.doQueuedTransition, henc]
  · intro env r sl push pid u hp henc
    obtain ⟨cur, pend, rep, q, init, win, att, np, lg⟩ := r
    simp only at hp henc
    subst hp
    rcases q with _ | q2 <;>
      simp [C2WritePost, Router.settleTransition, Router.queuedThen,
        Router.pushHistoryState, Router.urlToHistoryState, Router.finishTransition,
        Router.doQueuedTransition, henc]
  · intro env r sl url upg pid hp
    obtain ⟨cur, pend, rep, q, init, win, att, np, lg⟩ := r
    simp only at hp
    subst hp
    rcases q with _ | q2 <;>
      simp [Router.settleTransition, Router.historyThen, Router.finishTransition,
        Router.doQueuedTransition]
  · intro env r sl push
    obtain ⟨cur, pend, rep, q, init, win, att, np, lg⟩ := r
    rcases pend with _ | t <;> simp [Router.enterStates]

/-- A router whose in-flight transition was drained from the queue: `["a"]`
ran and settled while `["c"]` was queued. -/
def exPendingQueued : Router :=
  run exEnv (initRouter none) [.enter ["a"] true, .queueEnter ["c"] true, .settle .resolved]

/-- A router whose in-flight transition was started by a popstate event. -/
def exPendingHistory : Router :=
  run exEnv (initRouter none) [.attach, .popstate (some (.own "/a"))]

/-- Concrete instances of every part of `C2_history_write_ordering`. -/
theorem C2_history_write_ordering_witness :
    exPendingApi.pendingTransition = some ⟨["a"], .api true, 0⟩ ∧
    exPendingQueued.pendingTransition = some ⟨["c"], .queued none true, 1⟩ ∧
    exPendingHistory.pendingTransition = some ⟨["a"], .history "/a" false, 0⟩ ∧
    ((step exEnv exPendingApi (.replace ["x"])).currentStateList =
        exPendingApi.currentStateList ∧
      histWritesOf (step exEnv exPendingApi (.replace ["x"])).log =
        histWritesOf exPendingApi.log) ∧
    (Router.settleTransition exEnv exPendingApi
        (.rejected (.external "quux"))).currentStateList = exPendingApi.currentStateList ∧
    C2WritePost exEnv exPendingApi ["a"] true 0 "/a" ∧
    C2WritePost exEnv exPendingQueued ["c"] true 1 "/c" ∧
    (Router.settleTransition exEnv exPendingHistory .resolved).log =
      exPendingHistory.log ++ [.notif (.transitionComplete ["a"] "/a")] ++
        (match exPendingHistory.queue with
          | none => []
          | some q => [Ev.ctrlCall q.stateList q.upgrade]) ++
        [.promiseSettled 0 .resolved] ∧
    (Router.enterStates exEnv (initRouter none) ["a"] true).1.currentStateList =
      (initRouter none).currentStateList :=
  ⟨rfl, rfl, rfl,
   C2_history_write_ordering.1 exEnv exPendingApi ⟨["a"], .api true, 0⟩ (.replace ["x"])
     rfl (fun res h => nomatch h),
   (C2_history_write_ordering.2.1 exEnv exPendingApi ⟨["a"], .api true, 0⟩
     (.external "quux") rfl).1,
   C2_history_write_ordering.2.2.1 exEnv exPendingApi ["a"] true 0 "/a" rfl rfl,
   C2_history_write_ordering.2.2.2.1 exEnv exPendingQueued ["c"] true 1 "/c" rfl rfl,
   (C2_history_write_ordering.2.2.2.2.1 exEnv exPendingHistory ["a"] "/a" false 0 rfl).2,
   C2_history_write_ordering.2.2.2.2.2 exEnv (initRouter none) ["a"] true⟩

/-! ## C1 -/

/-- Conclusion of claim C1, for the scenario "transition to `A` Running,
then `queueEnterStates B`, then `queueEnterStates C`, then `A` settles,
then the queued transition settles": both queue calls return the same
shared promise; queueing logs nothing observable; the slot ends up holding
`C`'s request; at `A`'s settlement `C`'s request (not `B`'s) becomes the
in-flight transition; the only front-controller invocation of the whole
scenario is `C`'s — `B`'s operation is never invoked; and the shared
promise settles exactly once, with the outcome of the transition that
actually ran (`C`'s). -/
def C1Post (env : Env) (r : Router) (B C : StateList) (pb pc : Bool)
    (res1 res2 : Outcome) : Prop :=
  let q1 := Router.queueEnterStates env r B pb
  let q2 := Router.queueEnterStates env q1.1 C pc
  let r3 := Router.settleTransition env q2.1 res1
  let r4 := Router.settleTransition env r3 res2
  q2.2 = q1.2 ∧
  q2.1.log = r.log ∧
  q2.1.queue = some ⟨C, none, false, pc, q1.2⟩ ∧
  r3.pendingTransition = some ⟨C, .queued none pc, q1.2⟩ ∧
  r3.queue = none ∧
  ctrlCallsOf (List.drop r.log.length r4.log) = [.ctrlCall C false] ∧
  settlementsOf q1.2 r4.log = [.promiseSettled q1.2 res2]

/-- C1: queue coalescing.  While an `enterStates`-started transition to `A`
is running, `queueEnterStates B` followed by `queueEnterStates C` coalesce
into one queue slot with one shared outcome promise; `B`'s front-controller
operation is never invoked; `C` runs after `A` fully settles; and both
callers' futures settle identically, with the outcome of `C`'s run. -/
theorem C1_queue_coalescing (env : Env) (r : Router) (A B C : StateList)
    (pa pb pc : Bool) (pidA : Nat) (uC : Url) (res1 res2 : Outcome)
    (hp : r.pendingTransition = some ⟨A, .api pa, pidA⟩)
    (hq : r.queue = none)
    (hrep : r.pendingReplace = none)
    (hC : env.toURL C = .ok uC)
    (hfresh : settlementsOf r.nextPromise r.log = [])
    (hpid : pidA ≠ r.nextPromise) :
    C1Post env r B C pb pc res1 res2 := by
  obtain ⟨cur, pend, rep, q, init, win, att, np, lg⟩ := r
  simp only at hp hq hrep hfresh hpid
  subst hp hq hrep
  have hd : (decide (pidA = np)) = false := decide_eq_false hpid
  rcases res1 with _ | e1 <;> rcases res2 with _ | e2 <;>
    rcases henc : env.toURL A with eA | uA <;>
    simp [C1Post, Router.queueEnterStates, Router.addToQueue, Router.settleTransition,
      Router.apiThen, Router.queuedThen, Router.pushHistoryState,
      Router.urlToHistoryState, Router.finishTransition, Router.doQueuedTransition,
      ctrlCallsOf, settlementsOf, List.filter_append, hC, henc, hfresh, hd] <;>
    (simp only [settlementsOf, List.filter_eq_nil_iff] at hfresh
     intro a ha
     simpa using hfresh a ha)

/-- Concrete instance of `C1_queue_coalescing`. -/
theorem C1_queue_coalescing_witness :
    exPendingApi.pendingTransition = some ⟨["a"], .api true, 0⟩ ∧
    exPendingApi.queue = none ∧
    exPendingApi.pendingReplace = none ∧
    exEnv.toURL ["c"] = .ok "/c" ∧
    settlementsOf exPendingApi.nextPromise exPendingApi.log = [] ∧
    (0 : Nat) ≠ exPendingApi.nextPromise ∧
    C1Post exEnv exPendingApi ["b"] ["c"] true true .resolved .resolved :=
  ⟨rfl, rfl, rfl, rfl, rfl, by decide,
   C1_queue_coalescing exEnv exPendingApi ["a"] ["b"] ["c"] true true true 0 "/c"
     .resolved .resolved rfl rfl rfl rfl rfl (by decide)⟩

/-! ## C5 -/

/-- An `enterStates(['foo'])` transition whose front-controller operation
rejects with `Error('quux')`. -/
def c5ApiFail : Router :=
  run exEnv (initRouter none)
    [.enter ["foo"] true, .settle (.rejected (.external "quux"))]

/-- A popstate-started transition to `['foo']` whose front-controller
operation rejects with `Error('quux')`. -/
def c5PopFail : Router :=
  run exEnv (initRouter none)
    [.attach, .popstate (some (.own "/foo")), .settle (.rejected (.external "quux"))]

/-- C5, evaluated at the failing inputs: when a transition fails, the
router emits nothing at all — the full logs of both failing runs contain no
emitted event beyond the `historyPopState` start event of the
popstate-origin run.  There is no `transitionFailed` and no
`historyPopStateFailed` emission anywhere in the embedded code (the `Notif`
type, taken from the source's `emit` calls, has no failure constructor). -/
theorem C5_no_failure_notification :
    c5ApiFail.log = [.ctrlCall ["foo"] false,
                     .promiseSettled 0 (.rejected (.external "quux"))] ∧
    notifsOf c5ApiFail.log = [] ∧
    c5PopFail.log = [.ctrlCall ["foo"] false,
                     .notif (.historyPopState ["foo"] "/foo" 0),
                     .promiseSettled 0 (.rejected (.external "quux"))] ∧
    notifsOf c5PopFail.log = [.notif (.historyPopState ["foo"] "/foo" 0)] := by
  refine ⟨by decide, by decide, by decide, by decide⟩

/-! ## C6 -/

/-- Counterexample to claim C6 as stated: `replaceStateList(['x'])` is
called while a popstate-started (history-origin) transition to `['a']` is
running; once that transition settles successfully, `currentStateList` is
`['a']`, not `['x']`, and no history write happened at all. -/
def c6Run : Router :=
  run exEnv (initRouter none)
    [.attach, .popstate (some (.own "/a")), .replace ["x"], .settle .resolved]

/-- C6 counterexample: the claim's "regardless of origin" fails for
history-origin transitions — the override is ignored there. -/
theorem C6_replace_under_history_contention_cex :
    c6Run.currentStateList = some ["a"] ∧
    c6Run.currentStateList ≠ some ["x"] ∧
    histWritesOf c6Run.log = [] := by
  refine ⟨by decide, by decide, by decide⟩

/-- Conclusion of the amended claim C6 for the write-performing transition
kinds: after `replaceStateList X` during the transition and a successful
settlement, `currentStateList` is `X` and the history write carries `X`'s
url. -/
def C6WritePost (env : Env) (r : Router) (A X : StateList) (push : Bool) (pid : Nat)
    (uX : Url) : Prop :=
  (Router.settleTransition env (Router.replaceStateList env r X).1 .resolved).currentStateList
      = some X ∧
  (Router.settleTransition env (Router.replaceStateList env r X).1 .resolved).log =
    r.log ++ [.histWrite push (.own uX) uX, .notif (.transitionComplete A uX)] ++
      (match r.queue with
        | none => []
        | some q => [Ev.ctrlCall q.stateList q.upgrade]) ++
      [.promiseSettled pid .resolved]

/-- C6 amended: `replaceStateList(X)` during a running transition makes the
transition adopt `X` at a successful settlement for transitions started by
`enterStates` and for transitions drained from the queue (with the history
write using `X`'s url when the transition writes history; a queued
history-origin transition adopts `X` but keeps its pinned url and writes
nothing).  A transition run directly from a host navigation or upgrade
ignores the override. -/
theorem C6_replace_override_amended :
    (∀ (env : Env) (r : Router) (A X : StateList) (push : Bool) (pid : Nat) (uX : Url),
        r.pendingTransition = some ⟨A, .api push, pid⟩ →
        env.toURL X = .ok uX →
        C6WritePost env r A X push pid uX) ∧
    (∀ (env : Env) (r : Router) (A X : StateList) (push : Bool) (pid : Nat) (uX : Url),
        r.pendingTransition = some ⟨A, .queued none push, pid⟩ →
        env.toURL X = .ok uX →
        C6WritePost env r A X push pid uX) ∧
    (∀ (env : Env) (r : Router) (A X : StateList) (url : Url) (push : Bool) (pid : Nat),
        r.pendingTransition = some ⟨A, .queued (some url) push, pid⟩ →
        (Router.settleTransition env (Router.replaceStateList env r X).1
            .resolved).currentStateList = some X ∧
        histWritesOf (Router.settleTransition env (Router.replaceStateList env r X).1
            .resolved).log = histWritesOf r.log) := by
  refine ⟨?_, ?_, ?_⟩
  · intro env r A X push pid uX hp henc
    obtain ⟨cur, pend, rep, q, init, win, att, np, lg⟩ := r
    simp only at hp
    subst hp
    rcases q with _ | q2 <;>
      simp [C6WritePost, Router.replaceStateList, Router.settleTransition, Router.apiThen,
        Router.pushHistoryState, Router.urlToHistoryState, Router.finishTransition,
        Router.doQueuedTransition, henc]
  · intro env r A X push pid uX hp henc
    obtain ⟨cur, pend, rep, q, init, win, att, np, lg⟩ := r
    simp only at hp
    subst hp
    rcases q with _ | q2 <;>
      simp [C6WritePost, Router.replaceStateList, Router.settleTransition,
        Router.queuedThen, Router.pushHistoryState, Router.urlToHistoryState,
        Router.finishTransition, Router.doQueuedTransition, henc]
  · intro env r A X url push pid hp
    obtain ⟨cur, pend, rep, q, init, win, att, np, lg⟩ := r
    simp only at hp
    subst hp
    rcases q with _ | q2 <;>
      simp [Router.replaceStateList, Router.settleTransition, Router.queuedThen,
        Router.finishTransition, Router.doQueuedTransition, histWritesOf,
        List.filter_append]

/-- Concrete instance of `C6_replace_override_amended`. -/
theorem C6_replace_override_amended_witness :
    exPendingApi.pendingTransition = some ⟨["a"], .api true, 0⟩ ∧
    exEnv.toURL ["x"] = .ok "/x" ∧
    C6WritePost exEnv exPendingApi ["a"] ["x"] true 0 "/x" ∧
    exPendingQueued.pendingTransition = some ⟨["c"], .queued none true, 1⟩ ∧
    C6WritePost exEnv exPendingQueued ["c"] ["x"] true 1 "/x" :=
  ⟨rfl, rfl,
   C6_replace_override_amended.1 exEnv exPendingApi ["a"] ["x"] true 0 "/x" rfl rfl,
   rfl,
   C6_replace_override_amended.2.1 exEnv exPendingQueued ["c"] ["x"] true 1 "/x" rfl rfl⟩

/-! ## C7 -/

/-- Counterexample to claim C7 as stated: a popstate-started transition to
`['b']` is running, `replaceStateList(['y'])` records an override, and the
transition settles — yet the override is still recorded afterwards. -/
def c7Run : Router :=
  run exEnv (initRouter none)
    [.attach, .popstate (some (.own "/b")), .replace ["y"], .settle .resolved]

/-- C7 counterexample: the settlement of a history-origin transition does
not clear the recorded `replaceStateList` override. -/
theorem C7_override_survives_history_settlement_cex :
    c7Run.pendingTransition = none ∧
    c7Run.pendingReplace = some ["y"] ∧
    c7Run.pendingReplace ≠ none := by
  refine ⟨by decide, by decide, by decide⟩

/-- Does the log end with a settlement of the given promise? -/
def lastIsSettlementOf (pid : Nat) (l : List Ev) : Bool :=
  match l.getLast? with
  | some (.promiseSettled i _) => i = pid
  | _ => false

/-- C7 amended: at every settlement the pending-transition marker is
cleared and the queue is drained into the new in-flight transition, whose
front-controller invocation is logged before the settled transition's
outcome promise resolves; transitions built by `enterStates` and by the
queue drain also clear the recorded `replaceStateList` override, but a
transition run directly from a host navigation or upgrade leaves the
override in place. -/
theorem C7_settlement_cleanup_amended :
    (∀ (env : Env) (r : Router) (t : InFlight) (res : Outcome),
        r.pendingTransition = some t →
        ((∃ p, t.kind = .api p) ∨ (∃ fh p, t.kind = .queued fh p)) →
        (Router.settleTransition env r res).pendingReplace = none ∧
        (Router.settleTransition env r res).queue = none ∧
        (Router.settleTransition env r res).pendingTransition =
          (match r.queue with
            | none => none
            | some q => some ⟨q.stateList, .queued q.fromHistory q.push, q.promiseId⟩)) ∧
    (∀ (env : Env) (r : Router) (t : InFlight) (url : Url) (upg : Bool) (res : Outcome),
        r.pendingTransition = some t → t.kind = .history url upg →
        (Router.settleTransition env r res).pendingReplace = r.pendingReplace ∧
        (Router.settleTransition env r res).queue = none ∧
        (Router.settleTransition env r res).pendingTransition =
          (match r.queue with
            | none => none
            | some q => some ⟨q.stateList, .queued q.fromHistory q.push, q.promiseId⟩)) ∧
    (∀ (env : Env) (r : Router) (t : InFlight) (res : Outcome) (q0 : QueueEntry),
        r.pendingTransition = some t → r.queue = some q0 →
        lastIsSettlementOf t.promiseId
          (List.drop r.log.length (Router.settleTransition env r res).log) = true ∧
        Ev.ctrlCall q0.stateList q0.upgrade ∈
          (List.drop r.log.length (Router.settleTransition env r res).log).dropLast) := by
  refine ⟨?_, ?_, ?_⟩
  · intro env r t res hp hk
    obtain ⟨cur, pend, rep, q, init, win, att, np, lg⟩ := r
    simp only at hp
    subst hp
    obtain ⟨sl, k, pid⟩ := t
    rcases hk with ⟨p, hk⟩ | ⟨fh, p, hk⟩ <;> simp only at hk <;> subst hk <;>
      rcases res with _ | e <;> rcases q with _ | q2 <;>
      first
      | (rcases fh with _ | u <;>
          rcases henc : env.toURL (rep.getD sl) with eA | uA <;>
          simp [Router.settleTransition, Router.apiThen, Router.queuedThen,
            Router.pushHistoryState, Router.finishTransition, Router.doQueuedTransition,
            henc])
      | (rcases henc : env.toURL (rep.getD sl) with eA | uA <;>
          simp [Router.settleTransition, Router.apiThen, Router.queuedThen,
            Router.pushHistoryState, Router.finishTransition, Router.doQueuedTransition,
            henc])
  · intro env r t url upg res hp hk
    obtain ⟨cur, pend, rep, q, init, win, att, np, lg⟩ := r
    simp only at hp
    subst hp
    obtain ⟨sl, k, pid⟩ := t
    simp only at hk
    subst hk
    rcases res with _ | e <;> rcases q with _ | q2 <;>
      simp [Router.settleTransition, Router.historyThen, Router.finishTransition,
        Router.doQueuedTransition]
  · intro env r t res q0 hp hq
    obtain ⟨cur, pend, rep, q, init, win, att, np, lg⟩ := r
    simp only at hp hq
    subst hp hq
    obtain ⟨sl, k, pid⟩ := t
    rcases k with p | ⟨url, upg⟩ | ⟨fh, p⟩ <;> rcases res with _ | e <;>
      first
      | (rcases fh with _ | u <;>
          rcases henc : env.toURL (rep.getD sl) with eA | uA <;>
          simp [Router.settleTransition, Router.apiThen, Router.historyThen,
            Router.queuedThen, Router.pushHistoryState, Router.finishTransition,
            Router.doQueuedTransition, lastIsSettlementOf, henc])
      | (rcases henc : env.toURL (rep.getD sl) with eA | uA <;>
          simp [Router.settleTransition, Router.apiThen, Router.historyThen,
            Router.queuedThen, Router.pushHistoryState, Router.finishTransition,
            Router.doQueuedTransition, lastIsSettlementOf, henc])

/-- Concrete instances of `C7_settlement_cleanup_amended`: a drained
request is already in flight, and the settled promise resolved last, when
an `enterStates` transition with a queued request settles. -/
theorem C7_settlement_cleanup_amended_witness :
    (run exEnv (initRouter none)
        [.enter ["a"] true, .queueEnter ["c"] true]).pendingTransition =
      some ⟨["a"], .api true, 0⟩ ∧
    (run exEnv (initRouter none)
        [.enter ["a"] true, .queueEnter ["c"] true]).queue =
      some ⟨["c"], none, false, true, 1⟩ ∧
    ((Router.settleTransition exEnv
        (run exEnv (initRouter none) [.enter ["a"] true, .queueEnter ["c"] true])
        .resolved).pendingReplace = none ∧
      (Router.settleTransition exEnv
        (run exEnv (initRouter none) [.enter ["a"] true, .queueEnter ["c"] true])
        .resolved).queue = none ∧
      (Router.settleTransition exEnv
        (run exEnv (initRouter none) [.enter ["a"] true, .queueEnter ["c"] true])
        .resolved).pendingTransition =
        (match (run exEnv (initRouter none)
            [.enter ["a"] true, .queueEnter ["c"] true]).queue with
          | none => none
          | some q => some ⟨q.stateList, .queued q.fromHistory q.push, q.promiseId⟩)) ∧
    (lastIsSettlementOf 0
        (List.drop (run exEnv (initRouter none)
            [.enter ["a"] true, .queueEnter ["c"] true]).log.length
          (Router.settleTransition exEnv
            (run exEnv (initRouter none) [.enter ["a"] true, .queueEnter ["c"] true])
            .resolved).log) = true ∧
      Ev.ctrlCall ["c"] false ∈
        (List.drop (run exEnv (initRouter none)
            [.enter ["a"] true, .queueEnter ["c"] true]).log.length
          (Router.settleTransition exEnv
            (run exEnv (initRouter none) [.enter ["a"] true, .queueEnter ["c"] true])
            .resolved).log).dropLast) :=
  ⟨rfl, rfl,
   C7_settlement_cleanup_amended.1 exEnv
     (run exEnv (initRouter none) [.enter ["a"] true, .queueEnter ["c"] true])
     ⟨["a"], .api true, 0⟩ .resolved rfl (Or.inl ⟨true, rfl⟩),
   C7_settlement_cleanup_amended.2.2 exEnv
     (run exEnv (initRouter none) [.enter ["a"] true, .queueEnter ["c"] true])
     ⟨["a"], .api true, 0⟩ .resolved ⟨["c"], none, false, true, 1⟩ rfl rfl⟩

/-! ## C8 -/

/-- A run in which the initial record was captured by `upgradeInitialState`
(from the location, `/a`), and a later successful `enterStates(['b'])`
pushed a new record, moving `window.history.state` to `/b`. -/
def c8First : Router :=
  run exEnv (initRouter none)
    [.upgradeInit, .settle .resolved, .enter ["b"] true, .settle .resolved]

/-- The state after a second `upgradeInitialState` call on `c8First`. -/
def c8Second : Router := (Router.upgradeInitialState exEnv c8First).1

/-- C8 counterexample: a second `upgradeInitialState` call is not a no-op
with respect to the stored initial record — it re-runs the capture and
overwrites the record captured by the first call. -/
theorem C8_second_upgrade_overwrites_cex :
    c8First.initialHistoryState = some (.own "/a") ∧
    c8Second.initialHistoryState = some (.own "/b") ∧
    c8Second.initialHistoryState ≠ c8First.initialHistoryState := by
  refine ⟨by decide, by decide, by decide⟩

/-- C8 amended: attaching the popstate listener never overwrites an
already-captured initial record, and captures one only when none exists;
`upgradeInitialState`, by contrast, re-runs the capture on every call (its
stored record always equals the one `_saveStateAsInitial` would freshly
compute), so a second call can overwrite the stored record. -/
theorem C8_initial_capture_amended :
    (∀ (env : Env) (r : Router) (h : HistoryState),
        r.initialHistoryState = some h →
        (Router.attachPopStateListener env r).initialHistoryState = some h) ∧
    (∀ (env : Env) (r : Router),
        r.initialHistoryState = none →
        (Router.attachPopStateListener env r).initialHistoryState.isSome = true) ∧
    (∀ (env : Env) (r : Router),
        (Router.upgradeInitialState env r).1.initialHistoryState =
          (Router.saveStateAsInitial env r).initialHistoryState) := by
  refine ⟨?_, ?_, ?_⟩
  · intro env r h hi
    obtain ⟨cur, pend, rep, q, init, win, att, np, lg⟩ := r
    simp only at hi
    subst hi
    simp [Router.attachPopStateListener]
  · intro env r hi
    obtain ⟨cur, pend, rep, q, init, win, att, np, lg⟩ := r
    simp only at hi
    subst hi
    rcases win with _ | (⟨u⟩ | ⟨g⟩) <;>
      simp [Router.attachPopStateListener, Router.saveStateAsInitial,
        Router.urlToHistoryState]
  · intro env r
    obtain ⟨cur, pend, rep, q, init, win, att, np, lg⟩ := r
    rcases win with _ | (⟨u⟩ | ⟨g⟩) <;> rcases pend with _ | t <;> rcases q with _ | q2 <;>
      simp [Router.upgradeInitialState, Router.saveStateAsInitial,
        Router.handleHistoryState, Router.addToQueue, Router.urlToHistoryState]

/-- Concrete instances of `C8_initial_capture_amended`. -/
theorem C8_initial_capture_amended_witness :
    (Router.saveStateAsInitial exEnv (initRouter none)).initialHistoryState =
      some (.own "/a") ∧
    (Router.attachPopStateListener exEnv
        (Router.saveStateAsInitial exEnv (initRouter none))).initialHistoryState =
      some (.own "/a") ∧
    (initRouter none).initialHistoryState = none ∧
    (Router.attachPopStateListener exEnv (initRouter none)).initialHistoryState.isSome =
      true ∧
    (Router.upgradeInitialState exEnv c8First).1.initialHistoryState =
      (Router.saveStateAsInitial exEnv c8First).initialHistoryState :=
  ⟨rfl,
   C8_initial_capture_amended.1 exEnv (Router.saveStateAsInitial exEnv (initRouter none))
     (.own "/a") rfl,
   rfl,
   C8_initial_capture_amended.2.1 exEnv (initRouter none) rfl,
   C8_initial_capture_amended.2.2 exEnv c8First⟩
